import Mathlib

/-!
Shallow embedding of the Snake game simulation core (`src/main.cpp`).

Positions are modelled as pairs of rationals: every arithmetic operation the
simulation performs on `float` coordinates (adding or subtracting multiples of
2.5, comparing against small constants) is exact at the magnitudes the game
reaches, so exact rational arithmetic is a faithful model.  The only use of
`glm::distance` (a square root) is in comparisons `distance a b < t` with
`t ≥ 0`, which we embed as the equivalent squared comparison
`distSq a b < t^2`.

Randomness (`rand()` inside `spawnFood`) is modelled by passing the sampled
values in explicitly: `spawnFood` takes the list of raw samples it consumes,
and the per-tick transition takes the positions the two potential spawn calls
would return as oracle parameters.
-/

set_option maxRecDepth 100000

namespace Snake

/-- A 2D position, as exact rationals (models `glm::vec2`). -/
abbrev Pos := ℚ × ℚ

/-- Squared Euclidean distance.  `glm::distance a b < t` (with `t ≥ 0`) is
embedded as `distSq a b < t^2`. -/
def distSq (a b : Pos) : ℚ :=
  (a.1 - b.1) ^ 2 + (a.2 - b.2) ^ 2

/-- `enum Direction { UP, DOWN, LEFT, RIGHT };` (main.cpp line 62). -/
inductive Direction where
  | UP
  | DOWN
  | LEFT
  | RIGHT
deriving DecidableEq

open Direction

/-- `struct Square { glm::vec2 position; Direction direction; };`
(main.cpp lines 65-69): a snake segment or a food item. -/
structure Square where
  position : Pos
  direction : Direction
deriving DecidableEq

instance : Inhabited Square := ⟨⟨(0, 0), RIGHT⟩⟩

/-! Constants from main.cpp lines 46-53. -/

def windowWIDTH : ℚ := 800
def windowHEIGHT : ℚ := 600
def SQUARE_SIZE : ℚ := 20
def WALL_THICKNESS : ℚ := 60
def MOVE_STRIDE : ℚ := 5 / 2

/-- Head displacement per tick (the `switch (head.direction)` at
main.cpp lines 237-254): move by `MOVE_STRIDE` along the direction. -/
def movePos (p : Pos) (d : Direction) : Pos :=
  match d with
  | UP => (p.1, p.2 + MOVE_STRIDE)
  | DOWN => (p.1, p.2 - MOVE_STRIDE)
  | LEFT => (p.1 - MOVE_STRIDE, p.2)
  | RIGHT => (p.1 + MOVE_STRIDE, p.2)

/-- Wall collision test on the head position (main.cpp lines 257-263).
Note the bottom wall uses `WALL_THICKNESS - 17` while the other three
use `WALL_THICKNESS`. -/
def wallHit (p : Pos) : Bool :=
  decide (p.1 < 0 + WALL_THICKNESS) ||
  decide (p.1 ≥ windowWIDTH - WALL_THICKNESS) ||
  decide (p.2 < 0 + WALL_THICKNESS - 17) ||
  decide (p.2 ≥ windowHEIGHT - WALL_THICKNESS)

/-- Self-collision test (main.cpp lines 271-277): the head against every
other segment, with threshold `MOVE_STRIDE`. -/
def selfHit (snake : List Square) : Bool :=
  match snake with
  | [] => false
  | h :: t => t.any fun s => decide (distSq h.position s.position < MOVE_STRIDE ^ 2)

/-- Growth (main.cpp lines 282-285 and 308-311): read the tail segment
once (`Square newSegment = snake.back();`) and push `n` copies of it. -/
def grow (snake : List Square) (n : ℕ) : List Square :=
  snake ++ List.replicate n (snake.getLastD default)

/-- The mutable simulation state: the globals of main.cpp
(lines 37-43, 59, 72-81) that the per-tick transition reads and writes. -/
structure GameState where
  snake : List Square
  smallFoodPos : Pos
  bigFoodPos : Pos
  smallFoodOnScreen : Bool
  bigFoodOnScreen : Bool
  smallFoodEaten : ℕ
  score : ℕ
  gameOver : Bool
  currentDirection : Direction
  nextDirection : Direction
deriving DecidableEq

/-- Head position of a state (the `Square& head = snake[0]` reference). -/
def headPos (st : GameState) : Pos :=
  (st.snake.headD default).position

/-- Tick stage 1 (main.cpp lines 216-254): commit the pending direction,
shift every segment `i ≥ 1` to the previous position/direction of segment
`i-1` (the descending loop), then move the head by `MOVE_STRIDE` in the
committed direction and set its direction to it. -/
def moveStep (st : GameState) : GameState :=
  let dir := st.nextDirection
  match st.snake with
  | [] => { st with currentDirection := dir }
  | h :: t =>
    { st with
        currentDirection := dir
        snake := ⟨movePos h.position dir, dir⟩ :: (h :: t).dropLast }

/-- Tick stage 2 (main.cpp lines 256-277): wall and self-collision checks;
either sets `gameOver`. -/
def collideStep (st : GameState) : GameState :=
  match st.snake with
  | [] => st
  | h :: t =>
    if wallHit h.position || selfHit (h :: t) then { st with gameOver := true } else st

/-- Guard of the small-food branch (main.cpp line 280):
`smallFoodOnScreen && glm::distance(head.position, smallFood.position) < SQUARE_SIZE`. -/
def smallBranchFires (st : GameState) : Bool :=
  st.smallFoodOnScreen && decide (distSq (headPos st) st.smallFoodPos < SQUARE_SIZE ^ 2)

/-- Guard of the big-food branch (main.cpp line 306):
`bigFoodOnScreen && glm::distance(head.position, bigFood.position) < SQUARE_SIZE * 2`. -/
def bigBranchFires (st : GameState) : Bool :=
  st.bigFoodOnScreen && decide (distSq (headPos st) st.bigFoodPos < (SQUARE_SIZE * 2) ^ 2)

/-- Tick stage 3, the small-food branch (main.cpp lines 280-303).  `sp` is
the position the `spawnFood` call inside the branch returns (big food when
the counter reaches 3, small food otherwise). -/
def smallFoodStep (sp : Pos) (st : GameState) : GameState :=
  if smallBranchFires st then
    if st.smallFoodEaten + 1 = 3 then
      { st with
          snake := grow st.snake 25, score := st.score + 1, smallFoodEaten := 0,
          bigFoodPos := sp, bigFoodOnScreen := true, smallFoodOnScreen := false }
    else
      { st with
          snake := grow st.snake 25, score := st.score + 1,
          smallFoodEaten := st.smallFoodEaten + 1,
          smallFoodPos := sp, smallFoodOnScreen := true }
  else st

/-- Tick stage 4, the big-food branch (main.cpp lines 306-319).  `sp` is
the position the `spawnFood(false)` call inside the branch returns. -/
def bigFoodStep (sp : Pos) (st : GameState) : GameState :=
  if bigBranchFires st then
    { st with
        snake := grow st.snake 75, score := st.score + 2,
        smallFoodPos := sp, smallFoodOnScreen := true, bigFoodOnScreen := false }
  else st

/-- One simulation tick (the body of `if (deltaTime >= GAME_SPEED && !gameOver)`,
main.cpp lines 214-320).  `spA` and `spB` are the oracle results of the
spawn calls the small-food branch and the big-food branch would make. -/
def tick (spA spB : Pos) (st : GameState) : GameState :=
  bigFoodStep spB (smallFoodStep spA (collideStep (moveStep st)))

/-- One frame of the rendering loop, restricted to simulation state: the
tick fires only while the game is not over (main.cpp line 214; moreover the
loop breaks right after `gameOver` becomes observable, lines 355-360). -/
def frame (spA spB : Pos) (st : GameState) : GameState :=
  if st.gameOver then st else tick spA spB st

/-- Initial simulation state (main.cpp lines 31-81 globals and lines 196-198):
one segment at the window centre facing `RIGHT`, a small food spawned at
`sp` and on screen. -/
def initialState (sp : Pos) : GameState :=
  { snake := [⟨(windowWIDTH / 2, windowHEIGHT / 2), RIGHT⟩]
    smallFoodPos := sp
    bigFoodPos := (0, 0)
    smallFoodOnScreen := true
    bigFoodOnScreen := false
    smallFoodEaten := 0
    score := 0
    gameOver := false
    currentDirection := RIGHT
    nextDirection := RIGHT }

/-! ## The food spawner (main.cpp lines 545-583) -/

/-- One candidate position from two raw `rand()` samples (main.cpp
lines 553-554): `x = 100 + r₁ % 601`, `y = 100 + r₂ % 401`, where
`100 = int(WALL_THICKNESS + 40)`, `601 = 800 - 2*int(WALL_THICKNESS + 2*SQUARE_SIZE) + 1`
and `401 = 600 - 2*int(WALL_THICKNESS + 2*SQUARE_SIZE) + 1`. -/
def spawnCandidate (r : ℕ × ℕ) : Pos :=
  (((100 + r.1 % 601 : ℕ) : ℚ), ((100 + r.2 % 401 : ℕ) : ℚ))

/-- Validity test of a candidate (main.cpp lines 558-570): the candidate is
valid when no snake segment is within `SQUARE_SIZE` of it. -/
def validPosition (snake : List Square) (p : Pos) : Bool :=
  snake.all fun seg => !decide (distSq seg.position p < SQUARE_SIZE ^ 2)

/-- `spawnFood` (main.cpp lines 545-583): the do-while loop keeps sampling
until a candidate is valid.  `rs` is the stream of raw sample pairs the
loop consumes; the first valid candidate is returned, `none` modelling a
run of samples on which the loop has not yet terminated. -/
def spawnFood (snake : List Square) (rs : List (ℕ × ℕ)) : Option Pos :=
  (rs.map spawnCandidate).find? (validPosition snake)

/-! ## Reachability

A spawn oracle value handed to `tick` is faithful to `spawnFood` when it is
some candidate position (integer coordinates in the sample rectangle) and is
valid for the snake as it exists at the moment the code calls `spawnFood`
(that is, after the growth of the branch making the call). -/

/-- `p` has the shape of a value the sampler can produce. -/
def inSampleRect (p : Pos) : Prop :=
  ∃ r : ℕ × ℕ, p = spawnCandidate r

/-- The oracle pair `(spA, spB)` for a tick from `st` is consistent with
what the real `spawnFood` calls could return: whenever a branch fires, the
position it commits is a valid sample for the snake at the call site. -/
def tickSpawnOK (spA spB : Pos) (st : GameState) : Prop :=
  (smallBranchFires (collideStep (moveStep st)) = true →
    inSampleRect spA ∧
    validPosition (grow (collideStep (moveStep st)).snake 25) spA = true) ∧
  (bigBranchFires (smallFoodStep spA (collideStep (moveStep st))) = true →
    inSampleRect spB ∧
    validPosition (grow (smallFoodStep spA (collideStep (moveStep st))).snake 75) spB = true)

/-- The direction-key part of `processInput` (main.cpp lines 417-434):
an if/else-if chain over the four arrow keys, each guarded by the current
direction not being the opposite one. -/
structure Keys where
  up : Bool
  down : Bool
  left : Bool
  right : Bool
deriving DecidableEq

/-- New pending direction computed by `processInput` from the arrow-key
state (main.cpp lines 417-434). -/
def processDirection (k : Keys) (current next : Direction) : Direction :=
  if k.up && !(current == DOWN) then UP
  else if k.down && !(current == UP) then DOWN
  else if k.left && !(current == RIGHT) then LEFT
  else if k.right && !(current == LEFT) then RIGHT
  else next

/-- The exact reverse of a direction. -/
def reverseDir : Direction → Direction
  | UP => DOWN
  | DOWN => UP
  | LEFT => RIGHT
  | RIGHT => LEFT

/-- The key state in which exactly the arrow key for `d` is held. -/
def keyFor (d : Direction) : Keys :=
  match d with
  | UP => ⟨true, false, false, false⟩
  | DOWN => ⟨false, true, false, false⟩
  | LEFT => ⟨false, false, true, false⟩
  | RIGHT => ⟨false, false, false, true⟩

/-- States reachable by the simulation: the initial state with a genuinely
spawned first small food, ticks whose spawn oracles are consistent with
`spawnFood`, and input processing between ticks (which only rewrites the
pending direction). -/
inductive Reachable : GameState → Prop where
  | init (sp : Pos) (hs : inSampleRect sp)
      (hv : validPosition [⟨(windowWIDTH / 2, windowHEIGHT / 2), RIGHT⟩] sp = true) :
      Reachable (initialState sp)
  | step (st : GameState) (spA spB : Pos) (h : Reachable st)
      (hok : tickSpawnOK spA spB st) :
      Reachable (frame spA spB st)
  | input (st : GameState) (k : Keys) (h : Reachable st) :
      Reachable { st with nextDirection := processDirection k st.currentDirection st.nextDirection }

/-! ## Speed modulation (main.cpp lines 31-34, 378-415) -/

/-- `float GAME_SPEED = 0.012f;` — the baseline tick interval, kept in
`game_speed_controller` for restoring. -/
def baselineSpeed : ℚ := 12 / 1000

/-- The speed-relevant state of `processInput`: the current tick interval
`GAME_SPEED` and the two static edge-detection flags. -/
structure SpeedState where
  gameSpeed : ℚ
  spacePressed : Bool
  ctrlPressed : Bool
deriving DecidableEq

/-- The speed-modifier part of `processInput` (main.cpp lines 378-415):
first the space-bar block, then the left-control block.  `spaceKey` and
`ctrlKey` are the raw key levels (`GLFW_PRESS` = `true`). -/
def processSpeed (spaceKey ctrlKey : Bool) (s : SpeedState) : SpeedState :=
  let s1 :=
    if spaceKey && !s.spacePressed then
      { s with
          spacePressed := true
          gameSpeed := if s.gameSpeed > 3 / 1000 then s.gameSpeed - 5 / 1000 else s.gameSpeed }
    else if !spaceKey then
      { s with
          spacePressed := false
          gameSpeed := if !s.ctrlPressed then baselineSpeed else s.gameSpeed }
    else s
  if ctrlKey && !s1.ctrlPressed then
    { s1 with ctrlPressed := true, gameSpeed := 1 / 2 }
  else if !ctrlKey then
    { s1 with
        ctrlPressed := false
        gameSpeed := if !s1.spacePressed then baselineSpeed else s1.gameSpeed }
  else s1

/-! ## Concrete inputs used by witnesses and counterexamples -/

/-- A concrete two-segment snake state (head at the centre, one body segment
behind, a turn upward pending). -/
def advWit : GameState :=
  { snake := [Square.mk (400, 300) RIGHT, Square.mk (795 / 2, 300) RIGHT]
    smallFoodPos := (420, 300)
    bigFoodPos := (0, 0)
    smallFoodOnScreen := true
    bigFoodOnScreen := false
    smallFoodEaten := 0
    score := 0
    gameOver := false
    currentDirection := RIGHT
    nextDirection := UP }

/-- A concrete two-segment snake body. -/
def growWitList : List Square :=
  [Square.mk (400, 300) RIGHT, Square.mk (795 / 2, 300) UP]

/-- Like `advWit` but with no pending turn: current and pending direction
both `RIGHT`. -/
def advWitRight : GameState :=
  { advWit with nextDirection := RIGHT }

/-- A one-segment snake just inside the left wall, moving `LEFT`, with the
small food also in eating range: the next tick both leaves the playable
rectangle and eats. -/
def stWall : GameState :=
  { snake := [Square.mk (61, 300) LEFT]
    smallFoodPos := (45, 300)
    bigFoodPos := (0, 0)
    smallFoodOnScreen := true
    bigFoodOnScreen := false
    smallFoodEaten := 0
    score := 0
    gameOver := false
    currentDirection := LEFT
    nextDirection := LEFT }

/-- Start of a concrete three-tick run: fresh game with the first small food
spawned 20 units to the right of the head. -/
def cex0 : GameState := initialState (420, 300)

/-- After one tick of `cex0`: the first small food is eaten, the next one
spawns at `(423, 300)`. -/
def cex1 : GameState := frame (423, 300) (500, 300) cex0

/-- After two ticks: the second small food is eaten, the next one spawns at
`(426, 300)`; the small-food counter stands at 2. -/
def cex2 : GameState := frame (426, 300) (500, 300) cex1

/-! ## Helper lemmas about the tick stages -/

theorem growWitList_ne_nil : growWitList ≠ [] := by simp [growWitList]

theorem moveStep_length (st : GameState) : (moveStep st).snake.length = st.snake.length := by
  cases h : st.snake <;> simp [moveStep, h]

theorem moveStep_currentDirection (st : GameState) :
    (moveStep st).currentDirection = st.nextDirection := by
  cases h : st.snake <;> simp [moveStep, h]

theorem moveStep_fields (st : GameState) :
    (moveStep st).score = st.score ∧
    (moveStep st).smallFoodEaten = st.smallFoodEaten ∧
    (moveStep st).smallFoodOnScreen = st.smallFoodOnScreen ∧
    (moveStep st).bigFoodOnScreen = st.bigFoodOnScreen ∧
    (moveStep st).smallFoodPos = st.smallFoodPos ∧
    (moveStep st).bigFoodPos = st.bigFoodPos ∧
    (moveStep st).gameOver = st.gameOver := by
  cases h : st.snake <;> simp [moveStep, h]

theorem collideStep_fields (st : GameState) :
    (collideStep st).score = st.score ∧
    (collideStep st).smallFoodEaten = st.smallFoodEaten ∧
    (collideStep st).smallFoodOnScreen = st.smallFoodOnScreen ∧
    (collideStep st).bigFoodOnScreen = st.bigFoodOnScreen ∧
    (collideStep st).smallFoodPos = st.smallFoodPos ∧
    (collideStep st).bigFoodPos = st.bigFoodPos ∧
    (collideStep st).snake = st.snake ∧
    (collideStep st).currentDirection = st.currentDirection ∧
    (collideStep st).nextDirection = st.nextDirection := by
  unfold collideStep
  cases h : st.snake
  · simp_all
  · dsimp only
    split <;> simp_all

theorem grow_length (s : List Square) (n : ℕ) : (grow s n).length = s.length + n := by
  simp [grow]

theorem grow_headD (s : List Square) (n : ℕ) :
    (grow s n).headD default = s.headD default := by
  cases s with
  | nil =>
    cases n with
    | zero => rfl
    | succ m => simp [grow, List.replicate_succ]
  | cons a t => simp [grow]

theorem smallFoodStep_length (sp : Pos) (st : GameState) :
    (smallFoodStep sp st).snake.length =
      st.snake.length + (if smallBranchFires st then 25 else 0) := by
  unfold smallFoodStep
  split
  · split <;> simp_all [grow_length]
  · simp_all

theorem smallFoodStep_score (sp : Pos) (st : GameState) :
    (smallFoodStep sp st).score = st.score + (if smallBranchFires st then 1 else 0) := by
  unfold smallFoodStep
  split
  · split <;> simp_all
  · simp_all

theorem smallFoodStep_fixed (sp : Pos) (st : GameState) :
    (smallFoodStep sp st).gameOver = st.gameOver ∧
    (smallFoodStep sp st).currentDirection = st.currentDirection ∧
    (smallFoodStep sp st).nextDirection = st.nextDirection := by
  unfold smallFoodStep
  split
  · split <;> simp
  · simp

theorem bigFoodStep_length (sp : Pos) (st : GameState) :
    (bigFoodStep sp st).snake.length =
      st.snake.length + (if bigBranchFires st then 75 else 0) := by
  unfold bigFoodStep
  split <;> simp_all [grow_length]

theorem bigFoodStep_score (sp : Pos) (st : GameState) :
    (bigFoodStep sp st).score = st.score + (if bigBranchFires st then 2 else 0) := by
  unfold bigFoodStep
  split <;> simp_all

theorem bigFoodStep_fixed (sp : Pos) (st : GameState) :
    (bigFoodStep sp st).gameOver = st.gameOver ∧
    (bigFoodStep sp st).currentDirection = st.currentDirection ∧
    (bigFoodStep sp st).nextDirection = st.nextDirection ∧
    (bigFoodStep sp st).smallFoodEaten = st.smallFoodEaten ∧
    (bigFoodStep sp st).bigFoodPos = st.bigFoodPos := by
  unfold bigFoodStep
  split <;> simp

/-! ## C6: per-tick movement -/

/-- C6: for every snake of length `n ≥ 1`, the per-tick advance leaves the
segment count unchanged, assigns to every segment `i ≥ 1` the pre-tick
position and direction of segment `i-1`, moves the head by exactly
`MOVE_STRIDE = 2.5` along the committed (pending) direction, and sets the head
direction to that committed direction. -/
theorem advance_spec (st : GameState) (h : st.snake ≠ []) :
    (moveStep st).snake.length = st.snake.length ∧
    (moveStep st).currentDirection = st.nextDirection ∧
    (∀ i, 1 ≤ i → i < st.snake.length → (moveStep st).snake[i]? = st.snake[i - 1]?) ∧
    ((moveStep st).snake.headD default).position =
      movePos ((st.snake.headD default).position) st.nextDirection ∧
    ((moveStep st).snake.headD default).direction = st.nextDirection ∧
    (∀ p d, distSq p (movePos p d) = MOVE_STRIDE ^ 2) := by
  obtain ⟨a, t, hs⟩ := List.exists_cons_of_ne_nil h
  refine ⟨moveStep_length st, moveStep_currentDirection st, ?_, ?_, ?_, ?_⟩
  · intro i h1 h2
    obtain ⟨j, rfl⟩ : ∃ j, i = j + 1 := ⟨i - 1, by omega⟩
    rw [hs] at h2
    simp only [List.length_cons] at h2
    simp only [moveStep, hs]
    rw [List.getElem?_cons_succ, List.dropLast_eq_take, List.getElem?_take,
      if_pos (by simp only [List.length_cons]; omega)]
    simp
  · simp [moveStep, hs]
  · simp [moveStep, hs]
  · intro p d
    cases d <;> simp [distSq, movePos, MOVE_STRIDE]

/-- Closed instance of `advance_spec`: a two-segment snake at concrete
positions, one tick of movement. -/
theorem advance_spec_witness :
    (moveStep advWit).snake.length = advWit.snake.length ∧
    (moveStep advWit).currentDirection = advWit.nextDirection ∧
    (∀ i, 1 ≤ i → i < advWit.snake.length →
      (moveStep advWit).snake[i]? = advWit.snake[i - 1]?) ∧
    ((moveStep advWit).snake.headD default).position =
      movePos ((advWit.snake.headD default).position) advWit.nextDirection ∧
    ((moveStep advWit).snake.headD default).direction = advWit.nextDirection ∧
    (∀ p d, distSq p (movePos p d) = MOVE_STRIDE ^ 2) :=
  advance_spec advWit (by with_unfolding_all decide)

/-! ## C7: growth -/

/-- C7: `grow` increases the segment count by exactly `n`, leaves every
pre-existing segment untouched, and every appended segment is a copy of the
pre-growth tail segment (same position and direction). -/
theorem grow_spec (s : List Square) (n : ℕ) (h : s ≠ []) :
    (grow s n).length = s.length + n ∧
    (∀ i, i < s.length → (grow s n)[i]? = s[i]?) ∧
    (∀ i, s.length ≤ i → i < s.length + n → (grow s n)[i]? = some (s.getLast h)) := by
  refine ⟨grow_length s n, ?_, ?_⟩
  · intro i hi
    simp only [grow]
    rw [List.getElem?_append, if_pos hi]
  · intro i h1 h2
    simp only [grow]
    rw [List.getElem?_append, if_neg (by omega), List.getElem?_replicate, if_pos (by omega),
      List.getLastD_eq_getLast?, List.getLast?_eq_getLast s h]
    rfl

/-- Closed instance of `grow_spec`: growing a concrete two-segment snake
by 25 segments. -/
theorem grow_spec_witness :
    (grow growWitList 25).length = growWitList.length + 25 ∧
    (∀ i, i < growWitList.length → (grow growWitList 25)[i]? = growWitList[i]?) ∧
    (∀ i, growWitList.length ≤ i → i < growWitList.length + 25 →
      (grow growWitList 25)[i]? = some (growWitList.getLast growWitList_ne_nil)) :=
  grow_spec growWitList 25 growWitList_ne_nil

/-! ## C9: reverse direction rejected by the input mapper -/

theorem smallFoodStep_currentDirection (sp : Pos) (st : GameState) :
    (smallFoodStep sp st).currentDirection = st.currentDirection :=
  (smallFoodStep_fixed sp st).2.1

theorem bigFoodStep_currentDirection (sp : Pos) (st : GameState) :
    (bigFoodStep sp st).currentDirection = st.currentDirection :=
  (bigFoodStep_fixed sp st).2.1

theorem tick_currentDirection (spA spB : Pos) (st : GameState) :
    (tick spA spB st).currentDirection = st.nextDirection := by
  unfold tick
  rw [bigFoodStep_currentDirection, smallFoodStep_currentDirection,
    (collideStep_fields (moveStep st)).2.2.2.2.2.2.2.1, moveStep_currentDirection]

/-- C9: a direction intent equal to the exact reverse of the current
direction never updates the pending direction — processing such an input
leaves `nextDirection` unchanged, and if the pending direction equalled the
current one, the current direction persists at the next tick. -/
theorem reverse_direction_rejected (cur nxt : Direction) (st : GameState) (spA spB : Pos)
    (hcur : st.currentDirection = cur) (hnxt : st.nextDirection = cur) :
    processDirection (keyFor (reverseDir cur)) cur nxt = nxt ∧
    (tick spA spB
      { st with
          nextDirection :=
            processDirection (keyFor (reverseDir cur)) st.currentDirection
              st.nextDirection }).currentDirection = cur := by
  have hrej : ∀ d : Direction, processDirection (keyFor (reverseDir cur)) cur d = d := by
    intro d
    cases cur <;> simp [processDirection, keyFor, reverseDir]
  refine ⟨hrej nxt, ?_⟩
  rw [tick_currentDirection]
  simp only [hcur, hnxt, hrej cur]

/-- Closed instance of `reverse_direction_rejected` at a concrete state:
moving `RIGHT` with `LEFT` (its exact reverse) requested. -/
theorem reverse_direction_rejected_witness :
    processDirection (keyFor (reverseDir Direction.RIGHT)) Direction.RIGHT Direction.RIGHT =
      Direction.RIGHT ∧
    (tick (423, 300) (500, 300)
      { advWitRight with
          nextDirection :=
            processDirection (keyFor (reverseDir Direction.RIGHT))
              advWitRight.currentDirection
              advWitRight.nextDirection }).currentDirection = Direction.RIGHT :=
  reverse_direction_rejected Direction.RIGHT Direction.RIGHT advWitRight (423, 300) (500, 300)
    (by with_unfolding_all decide) (by with_unfolding_all decide)

/-! ## C4: the "slow" control -/

/-- C4 (code evaluated at the failing input): from the baseline state with
neither modifier held, pressing space makes `GAME_SPEED` equal to
`0.012 - 0.005 = 0.007`, which is *smaller* than the baseline interval —
the interval decreases (ticks become more frequent, the game speeds up),
contradicting the claim that the slow control increases the tick interval.
Releasing it with control not held does restore the baseline. -/
theorem space_press_decreases_interval :
    (processSpeed true false ⟨baselineSpeed, false, false⟩).gameSpeed = 7 / 1000 ∧
    (7 / 1000 : ℚ) < baselineSpeed ∧
    (processSpeed false false
      (processSpeed true false ⟨baselineSpeed, false, false⟩)).gameSpeed = baselineSpeed := by
  refine ⟨?_, ?_, ?_⟩ <;> with_unfolding_all decide

/-! ## C8: the food spawner -/

/-- C8: whenever `spawnFood` terminates (returns `some p`), `p` has integer
coordinates lying in the inset sample rectangle `[100, 700] × [100, 500]`
(hence strictly inside the playable area: `wallHit p = false`), and the
distance from `p` to every current snake segment is at least
`SQUARE_SIZE = 20`. -/
theorem spawnFood_spec (snake : List Square) (rs : List (ℕ × ℕ)) (p : Pos)
    (h : spawnFood snake rs = some p) :
    (∃ x y : ℕ, p = ((x : ℚ), (y : ℚ)) ∧
      100 ≤ x ∧ x ≤ 700 ∧ 100 ≤ y ∧ y ≤ 500) ∧
    wallHit p = false ∧
    (∀ seg ∈ snake, SQUARE_SIZE ^ 2 ≤ distSq seg.position p) := by
  have hmem : p ∈ rs.map spawnCandidate := List.mem_of_find?_eq_some h
  have hval : validPosition snake p = true := List.find?_some h
  obtain ⟨r, _, hr⟩ := List.mem_map.mp hmem
  have hbounds : ∃ x y : ℕ, p = ((x : ℚ), (y : ℚ)) ∧
      100 ≤ x ∧ x ≤ 700 ∧ 100 ≤ y ∧ y ≤ 500 := by
    refine ⟨100 + r.1 % 601, 100 + r.2 % 401, ?_, by omega,
      by have := Nat.mod_lt r.1 (show 0 < 601 by norm_num); omega, by omega,
      by have := Nat.mod_lt r.2 (show 0 < 401 by norm_num); omega⟩
    rw [← hr]; rfl
  refine ⟨hbounds, ?_, ?_⟩
  · obtain ⟨x, y, rfl, hx1, hx2, hy1, hy2⟩ := hbounds
    have hx1q : (100 : ℚ) ≤ (x : ℚ) := by exact_mod_cast hx1
    have hx2q : (x : ℚ) ≤ 700 := by exact_mod_cast hx2
    have hy1q : (100 : ℚ) ≤ (y : ℚ) := by exact_mod_cast hy1
    have hy2q : (y : ℚ) ≤ 500 := by exact_mod_cast hy2
    simp only [wallHit, Bool.or_eq_false_iff, decide_eq_false_iff_not, not_lt, not_le,
      windowWIDTH, windowHEIGHT, WALL_THICKNESS]
    refine ⟨⟨⟨?_, ?_⟩, ?_⟩, ?_⟩ <;> linarith
  · intro seg hseg
    have := List.all_eq_true.mp hval seg hseg
    simp only [Bool.not_eq_eq_eq_not, Bool.not_true, decide_eq_false_iff_not, not_lt] at this
    exact this

/-- Closed instance of `spawnFood_spec`: a one-segment snake at the centre
and a single raw sample that maps to `(420, 300)`. -/
theorem spawnFood_spec_witness :
    (∃ x y : ℕ, ((420 : ℚ), (300 : ℚ)) = ((x : ℚ), (y : ℚ)) ∧
      100 ≤ x ∧ x ≤ 700 ∧ 100 ≤ y ∧ y ≤ 500) ∧
    wallHit (420, 300) = false ∧
    (∀ seg ∈ [Square.mk (400, 300) Direction.RIGHT],
      SQUARE_SIZE ^ 2 ≤ distSq seg.position (420, 300)) :=
  spawnFood_spec [Square.mk (400, 300) Direction.RIGHT] [(320, 200)] (420, 300)
    (by with_unfolding_all decide)

/-! ## C3: food exclusivity invariant -/

theorem smallFoodStep_flags (sp : Pos) (st : GameState)
    (hx : st.smallFoodOnScreen = !st.bigFoodOnScreen) :
    (smallFoodStep sp st).smallFoodOnScreen = !(smallFoodStep sp st).bigFoodOnScreen := by
  unfold smallFoodStep
  split
  · rename_i hf
    have hsmall : st.smallFoodOnScreen = true := by
      simp only [smallBranchFires, Bool.and_eq_true] at hf
      exact hf.1
    split <;> simp_all
  · exact hx

theorem bigFoodStep_flags (sp : Pos) (st : GameState)
    (hx : st.smallFoodOnScreen = !st.bigFoodOnScreen) :
    (bigFoodStep sp st).smallFoodOnScreen = !(bigFoodStep sp st).bigFoodOnScreen := by
  unfold bigFoodStep
  split
  · simp
  · exact hx

theorem tick_flags_exclusive (spA spB : Pos) (st : GameState)
    (hx : st.smallFoodOnScreen = !st.bigFoodOnScreen) :
    (tick spA spB st).smallFoodOnScreen = !(tick spA spB st).bigFoodOnScreen := by
  unfold tick
  apply bigFoodStep_flags
  apply smallFoodStep_flags
  rw [(collideStep_fields (moveStep st)).2.2.1, (collideStep_fields (moveStep st)).2.2.2.1,
    (moveStep_fields st).2.2.1, (moveStep_fields st).2.2.2.1]
  exact hx

theorem frame_flags_exclusive (spA spB : Pos) (st : GameState)
    (hx : st.smallFoodOnScreen = !st.bigFoodOnScreen) :
    (frame spA spB st).smallFoodOnScreen = !(frame spA spB st).bigFoodOnScreen := by
  unfold frame
  split
  · exact hx
  · exact tick_flags_exclusive spA spB st hx

theorem reachable_food_exclusive (st : GameState) (h : Reachable st) :
    st.smallFoodOnScreen = !st.bigFoodOnScreen := by
  induction h with
  | init sp hs hv => rfl
  | step st spA spB h hok ih => exact frame_flags_exclusive spA spB st ih
  | input st k h ih => exact ih

/-- C3: in every state reachable after the game has started, exactly one of
{small food active, large food active} holds — never both, never neither —
and (being proved by induction over the per-tick transition) every tick
preserves this exclusivity. -/
theorem food_exactly_one_active (st : GameState) (h : Reachable st) :
    ((st.smallFoodOnScreen = true ∧ st.bigFoodOnScreen = false) ∨
      (st.smallFoodOnScreen = false ∧ st.bigFoodOnScreen = true)) ∧
    (∀ spA spB : Pos,
      ((frame spA spB st).smallFoodOnScreen = true ∧
        (frame spA spB st).bigFoodOnScreen = false) ∨
      ((frame spA spB st).smallFoodOnScreen = false ∧
        (frame spA spB st).bigFoodOnScreen = true)) := by
  have hx := reachable_food_exclusive st h
  constructor
  · cases hb : st.bigFoodOnScreen <;> simp_all
  · intro spA spB
    have := frame_flags_exclusive spA spB st hx
    cases hb : (frame spA spB st).bigFoodOnScreen <;> simp_all

/-- Closed instance of `food_exactly_one_active` at the initial state with
the first small food at `(420, 300)`. -/
theorem food_exactly_one_active_witness :
    (((initialState (420, 300)).smallFoodOnScreen = true ∧
        (initialState (420, 300)).bigFoodOnScreen = false) ∨
      ((initialState (420, 300)).smallFoodOnScreen = false ∧
        (initialState (420, 300)).bigFoodOnScreen = true)) ∧
    (∀ spA spB : Pos,
      ((frame spA spB (initialState (420, 300))).smallFoodOnScreen = true ∧
        (frame spA spB (initialState (420, 300))).bigFoodOnScreen = false) ∨
      ((frame spA spB (initialState (420, 300))).smallFoodOnScreen = false ∧
        (frame spA spB (initialState (420, 300))).bigFoodOnScreen = true)) :=
  food_exactly_one_active (initialState (420, 300))
    (Reachable.init (420, 300) ⟨(320, 200), by with_unfolding_all decide⟩
      (by with_unfolding_all decide))

/-! ## C5: asymmetric wall boundary and terminal game over -/

theorem collideStep_gameOver_eq (st : GameState) (a : Square) (t : List Square)
    (h : st.snake = a :: t) (hrun : st.gameOver = false) (hself : selfHit (a :: t) = false) :
    (collideStep st).gameOver = wallHit a.position := by
  unfold collideStep
  rw [h]
  dsimp only
  simp only [hself, Bool.or_false]
  split <;> simp_all

/-- C5: on a tick from a running state (absent self-collision), the game
transitions to `GAME_OVER` exactly when the advanced head position falls
outside the inset playable rectangle, whose bottom boundary is offset by
`WALL_THICKNESS - 17` — 17 units lower than the `WALL_THICKNESS = 60`
margin used on the left, right and top; and once `gameOver` holds, a
frame leaves the whole state untouched. -/
theorem wall_game_over_spec (st : GameState) (spA spB spA2 spB2 : Pos) (s2 : GameState)
    (hrun : st.gameOver = false) (hne : st.snake ≠ [])
    (hself : selfHit (moveStep st).snake = false)
    (hs2 : s2.gameOver = true) :
    ((tick spA spB st).gameOver = true ↔
      ((headPos (moveStep st)).1 < 0 + WALL_THICKNESS ∨
        (headPos (moveStep st)).1 ≥ windowWIDTH - WALL_THICKNESS ∨
        (headPos (moveStep st)).2 < 0 + WALL_THICKNESS - 17 ∨
        (headPos (moveStep st)).2 ≥ windowHEIGHT - WALL_THICKNESS)) ∧
    frame spA2 spB2 s2 = s2 := by
  obtain ⟨a, t, hs⟩ := List.exists_cons_of_ne_nil hne
  have hcons : (moveStep st).snake =
      Square.mk (movePos a.position st.nextDirection) st.nextDirection :: (a :: t).dropLast := by
    simp [moveStep, hs]
  have hrun2 : (moveStep st).gameOver = false := by
    rw [(moveStep_fields st).2.2.2.2.2.2]; exact hrun
  have hgo : (tick spA spB st).gameOver = wallHit (headPos (moveStep st)) := by
    rw [show tick spA spB st = bigFoodStep spB (smallFoodStep spA (collideStep (moveStep st)))
        from rfl, (bigFoodStep_fixed _ _).1, (smallFoodStep_fixed _ _).1,
      collideStep_gameOver_eq (moveStep st) _ _ hcons hrun2 (hcons ▸ hself)]
    simp [headPos, hcons]
  constructor
  · rw [hgo]
    simp [wallHit, or_assoc]
  · simp [frame, hs2]

/-- Closed instance of `wall_game_over_spec`: from `stWall` (head at
`(61, 300)` moving `LEFT`), one tick moves the head to `(58.5, 300)`,
which is outside the left boundary, so the game is over. -/
theorem wall_game_over_spec_witness :
    ((tick (423, 300) (500, 300) stWall).gameOver = true ↔
      ((headPos (moveStep stWall)).1 < 0 + WALL_THICKNESS ∨
        (headPos (moveStep stWall)).1 ≥ windowWIDTH - WALL_THICKNESS ∨
        (headPos (moveStep stWall)).2 < 0 + WALL_THICKNESS - 17 ∨
        (headPos (moveStep stWall)).2 ≥ windowHEIGHT - WALL_THICKNESS)) ∧
    frame (430, 300) (500, 300) { stWall with gameOver := true } =
      { stWall with gameOver := true } :=
  wall_game_over_spec stWall (423, 300) (500, 300) (430, 300) (500, 300)
    { stWall with gameOver := true }
    (by with_unfolding_all decide) (by with_unfolding_all decide)
    (by with_unfolding_all decide) (by with_unfolding_all decide)

/-! ## C10: food consumption still happens on a fatal tick -/

/-- C10: on a tick where the advanced head is fatal (wall violation or
self-collision has set `gameOver`), the food-consumption checks still run
in the same tick: if a food branch fires, the snake still grows (by at
least 25) and the score still increments (by at least 1), the tick ends
with `gameOver = true`, and the final reported score keeps the increment
(later frames change nothing). -/
theorem fatal_tick_still_scores (st : GameState) (spA spB spA2 spB2 : Pos)
    (hrun : st.gameOver = false)
    (hfatal : (collideStep (moveStep st)).gameOver = true)
    (heat : smallBranchFires (collideStep (moveStep st)) = true ∨
      bigBranchFires (smallFoodStep spA (collideStep (moveStep st))) = true) :
    (tick spA spB st).gameOver = true ∧
    st.score + 1 ≤ (tick spA spB st).score ∧
    st.snake.length + 25 ≤ (tick spA spB st).snake.length ∧
    frame spA2 spB2 (tick spA spB st) = tick spA spB st := by
  have hgo : (tick spA spB st).gameOver = true := by
    rw [show tick spA spB st = bigFoodStep spB (smallFoodStep spA (collideStep (moveStep st)))
        from rfl, (bigFoodStep_fixed _ _).1, (smallFoodStep_fixed _ _).1, hfatal]
  have hsc : (collideStep (moveStep st)).score = st.score := by
    rw [(collideStep_fields _).1, (moveStep_fields st).1]
  have hln : (collideStep (moveStep st)).snake.length = st.snake.length := by
    rw [(collideStep_fields _).2.2.2.2.2.2.1, moveStep_length]
  refine ⟨hgo, ?_, ?_, by simp [frame, hgo]⟩
  · rw [show tick spA spB st = bigFoodStep spB (smallFoodStep spA (collideStep (moveStep st)))
        from rfl, bigFoodStep_score, smallFoodStep_score, hsc]
    rcases heat with hf | hf
    · rw [if_pos hf]; split <;> omega
    · rw [if_pos hf]; split <;> omega
  · rw [show tick spA spB st = bigFoodStep spB (smallFoodStep spA (collideStep (moveStep st)))
        from rfl, bigFoodStep_length, smallFoodStep_length, hln]
    rcases heat with hf | hf
    · rw [if_pos hf]; split <;> omega
    · rw [if_pos hf]; split <;> omega

/-- Closed instance of `fatal_tick_still_scores` at `stWall`: the head
leaves the playable rectangle and still eats the small food, ending the
game with score 1 and 26 segments. -/
theorem fatal_tick_still_scores_witness :
    (tick (423, 300) (500, 300) stWall).gameOver = true ∧
    stWall.score + 1 ≤ (tick (423, 300) (500, 300) stWall).score ∧
    stWall.snake.length + 25 ≤ (tick (423, 300) (500, 300) stWall).snake.length ∧
    frame (430, 300) (500, 300) (tick (423, 300) (500, 300) stWall) =
      tick (423, 300) (500, 300) stWall :=
  fatal_tick_still_scores stWall (423, 300) (500, 300) (430, 300) (500, 300)
    (by with_unfolding_all decide) (by with_unfolding_all decide)
    (Or.inl (by with_unfolding_all decide))

/-! ## C1 and C2: the two growth branches -/

theorem collide_move_fields (st : GameState) :
    (collideStep (moveStep st)).score = st.score ∧
    (collideStep (moveStep st)).smallFoodEaten = st.smallFoodEaten ∧
    (collideStep (moveStep st)).smallFoodOnScreen = st.smallFoodOnScreen ∧
    (collideStep (moveStep st)).bigFoodOnScreen = st.bigFoodOnScreen ∧
    (collideStep (moveStep st)).snake.length = st.snake.length := by
  refine ⟨?_, ?_, ?_, ?_, ?_⟩
  · rw [(collideStep_fields _).1, (moveStep_fields st).1]
  · rw [(collideStep_fields _).2.1, (moveStep_fields st).2.1]
  · rw [(collideStep_fields _).2.2.1, (moveStep_fields st).2.2.1]
  · rw [(collideStep_fields _).2.2.2.1, (moveStep_fields st).2.2.2.1]
  · rw [(collideStep_fields _).2.2.2.2.2.2.1, moveStep_length]

theorem bigOff_of_smallFires (st : GameState)
    (hx : st.smallFoodOnScreen = !st.bigFoodOnScreen)
    (hsf : smallBranchFires (collideStep (moveStep st)) = true) :
    (collideStep (moveStep st)).bigFoodOnScreen = false := by
  have hsmall : (collideStep (moveStep st)).smallFoodOnScreen = true := by
    have hsf' := hsf
    simp only [smallBranchFires, Bool.and_eq_true] at hsf'
    exact hsf'.1
  have hx1 : (collideStep (moveStep st)).smallFoodOnScreen =
      !(collideStep (moveStep st)).bigFoodOnScreen := by
    rw [(collide_move_fields st).2.2.1, (collide_move_fields st).2.2.2.1]
    exact hx
  rw [hsmall] at hx1
  cases hb : (collideStep (moveStep st)).bigFoodOnScreen
  · rfl
  · rw [hb] at hx1
    exact absurd hx1 (by decide)

theorem smallFoodStep_eq_of_third (sp : Pos) (x : GameState)
    (hsf : smallBranchFires x = true) (he : x.smallFoodEaten + 1 = 3) :
    smallFoodStep sp x =
      { x with
          snake := grow x.snake 25, score := x.score + 1, smallFoodEaten := 0,
          bigFoodPos := sp, bigFoodOnScreen := true, smallFoodOnScreen := false } := by
  unfold smallFoodStep
  rw [if_pos hsf, if_pos he]

theorem smallFoodStep_eq_of_notThird (sp : Pos) (x : GameState)
    (hsf : smallBranchFires x = true) (he : ¬ x.smallFoodEaten + 1 = 3) :
    smallFoodStep sp x =
      { x with
          snake := grow x.snake 25, score := x.score + 1,
          smallFoodEaten := x.smallFoodEaten + 1,
          smallFoodPos := sp, smallFoodOnScreen := true } := by
  unfold smallFoodStep
  rw [if_pos hsf, if_neg he]

theorem bigFoodStep_id (sp : Pos) (x : GameState) (h : bigBranchFires x = false) :
    bigFoodStep sp x = x := by
  simp [bigFoodStep, h]

theorem headPos_third (sp : Pos) (x : GameState) (hsf : smallBranchFires x = true)
    (he : x.smallFoodEaten + 1 = 3) :
    headPos (smallFoodStep sp x) = headPos x := by
  rw [smallFoodStep_eq_of_third sp x hsf he]
  show ((grow x.snake 25).headD default).position = (x.snake.headD default).position
  rw [grow_headD]

theorem bigFoodPos_third (sp : Pos) (x : GameState) (hsf : smallBranchFires x = true)
    (he : x.smallFoodEaten + 1 = 3) :
    (smallFoodStep sp x).bigFoodPos = sp := by
  rw [smallFoodStep_eq_of_third sp x hsf he]

theorem bigOn_third (sp : Pos) (x : GameState) (hsf : smallBranchFires x = true)
    (he : x.smallFoodEaten + 1 = 3) :
    (smallFoodStep sp x).bigFoodOnScreen = true := by
  rw [smallFoodStep_eq_of_third sp x hsf he]

theorem reachable_cex0 : Reachable cex0 :=
  Reachable.init (420, 300) ⟨(320, 200), by with_unfolding_all decide⟩
    (by with_unfolding_all decide)

theorem tickSpawnOK_cex0 : tickSpawnOK (423, 300) (500, 300) cex0 := by
  constructor
  · intro hf
    exact ⟨⟨(323, 200), by with_unfolding_all decide⟩, by with_unfolding_all decide⟩
  · intro hb
    exact absurd hb (by with_unfolding_all decide)

theorem reachable_cex1 : Reachable cex1 :=
  Reachable.step cex0 (423, 300) (500, 300) reachable_cex0 tickSpawnOK_cex0

theorem tickSpawnOK_cex1 : tickSpawnOK (426, 300) (500, 300) cex1 := by
  constructor
  · intro hf
    exact ⟨⟨(326, 200), by with_unfolding_all decide⟩, by with_unfolding_all decide⟩
  · intro hb
    exact absurd hb (by with_unfolding_all decide)

theorem reachable_cex2 : Reachable cex2 :=
  Reachable.step cex1 (426, 300) (500, 300) reachable_cex1 tickSpawnOK_cex1

theorem tickSpawnOK_cex2 : tickSpawnOK (430, 300) (500, 300) cex2 := by
  constructor
  · intro hf
    exact ⟨⟨(330, 200), by with_unfolding_all decide⟩, by with_unfolding_all decide⟩
  · intro hb
    exact ⟨⟨(400, 200), by with_unfolding_all decide⟩, by with_unfolding_all decide⟩

/-- C1 counterexample: `cex2` is a reachable state (two small foods already
eaten), and with spawn oracles that the real `spawnFood` could return —
the large food lands 22.5 units from the head, which is ≥ 20 from every
segment but below the 40-unit large-food eating threshold — the tick that
eats the third small food fires BOTH growth branches: score jumps by 3
(1 + 2) and the snake grows by 100 (25 + 75) segments in one tick. -/
theorem both_growth_branches_fire_cex :
    Reachable cex2 ∧ tickSpawnOK (430, 300) (500, 300) cex2 ∧
    cex2.smallFoodEaten = 2 ∧
    smallBranchFires (collideStep (moveStep cex2)) = true ∧
    bigBranchFires (smallFoodStep (430, 300) (collideStep (moveStep cex2))) = true ∧
    (tick (430, 300) (500, 300) cex2).score = cex2.score + 3 ∧
    (tick (430, 300) (500, 300) cex2).snake.length = cex2.snake.length + 100 :=
  ⟨reachable_cex2, tickSpawnOK_cex2, by with_unfolding_all decide,
    by with_unfolding_all decide, by with_unfolding_all decide,
    by with_unfolding_all decide, by with_unfolding_all decide⟩

/-- C1 (amended): with exclusive food flags, the two growth branches can
both fire in one tick only in a single scenario: the tick eats the third
small food (counter at 2), the large food the branch spawns is committed as
the new big-food position, and that freshly spawned position lies within
`2 * SQUARE_SIZE = 40` of the head.  In every other situation at most one
branch fires. -/
theorem both_growth_branches_amended (st : GameState) (spA : Pos)
    (hx : st.smallFoodOnScreen = !st.bigFoodOnScreen)
    (hsf : smallBranchFires (collideStep (moveStep st)) = true)
    (hbf : bigBranchFires (smallFoodStep spA (collideStep (moveStep st))) = true) :
    st.smallFoodEaten = 2 ∧
    (smallFoodStep spA (collideStep (moveStep st))).bigFoodPos = spA ∧
    distSq (headPos (collideStep (moveStep st))) spA < (SQUARE_SIZE * 2) ^ 2 := by
  have hbig1 := bigOff_of_smallFires st hx hsf
  by_cases he : (collideStep (moveStep st)).smallFoodEaten + 1 = 3
  · have heat : st.smallFoodEaten = 2 := by
      have h2 := he
      rw [(collide_move_fields st).2.1] at h2
      omega
    have hhead := headPos_third spA (collideStep (moveStep st)) hsf he
    have hd := hbf
    simp only [bigBranchFires, Bool.and_eq_true, decide_eq_true_eq] at hd
    obtain ⟨-, hd2⟩ := hd
    rw [hhead, bigFoodPos_third spA (collideStep (moveStep st)) hsf he] at hd2
    exact ⟨heat, bigFoodPos_third spA (collideStep (moveStep st)) hsf he, hd2⟩
  · exfalso
    have hstep := smallFoodStep_eq_of_notThird spA (collideStep (moveStep st)) hsf he
    have hoff : (smallFoodStep spA (collideStep (moveStep st))).bigFoodOnScreen = false := by
      rw [hstep]
      simpa using hbig1
    have hd := hbf
    simp only [bigBranchFires, Bool.and_eq_true] at hd
    rw [hoff] at hd
    exact absurd hd.1 (by simp)

/-- Closed instance of `both_growth_branches_amended` at the concrete
double-firing tick from `cex2`. -/
theorem both_growth_branches_amended_witness :
    cex2.smallFoodEaten = 2 ∧
    (smallFoodStep (430, 300) (collideStep (moveStep cex2))).bigFoodPos = (430, 300) ∧
    distSq (headPos (collideStep (moveStep cex2))) (430, 300) < (SQUARE_SIZE * 2) ^ 2 :=
  both_growth_branches_amended cex2 (430, 300) (by with_unfolding_all decide)
    (by with_unfolding_all decide) (by with_unfolding_all decide)

/-- C2 counterexample: at the reachable state `cex2` (counter at 2,
running), with spawn oracles the real `spawnFood` could return, the small
food is in eating range, yet the tick does NOT increment the score by
exactly 1 nor grow the snake by exactly 25 (the large-food branch also
fires: +3 score, +100 segments), and the tick ends with the small food
active and the large food inactive rather than the converse. -/
theorem small_food_tick_cex :
    Reachable cex2 ∧ tickSpawnOK (430, 300) (500, 300) cex2 ∧
    cex2.gameOver = false ∧
    smallBranchFires (collideStep (moveStep cex2)) = true ∧
    cex2.smallFoodEaten = 2 ∧
    ¬ (tick (430, 300) (500, 300) cex2).score = cex2.score + 1 ∧
    ¬ (tick (430, 300) (500, 300) cex2).snake.length = cex2.snake.length + 25 ∧
    (tick (430, 300) (500, 300) cex2).smallFoodOnScreen = true ∧
    (tick (430, 300) (500, 300) cex2).bigFoodOnScreen = false :=
  ⟨reachable_cex2, tickSpawnOK_cex2, by with_unfolding_all decide,
    by with_unfolding_all decide, by with_unfolding_all decide,
    by with_unfolding_all decide, by with_unfolding_all decide,
    by with_unfolding_all decide, by with_unfolding_all decide⟩

/-- C2 (amended): on a tick whose small-food branch fires (exclusive food
flags assumed), and provided that when the counter reaches 3 the freshly
spawned large food does not land within `2 * SQUARE_SIZE = 40` of the head,
the tick grows the snake by exactly 25 segments and increments the score by
exactly 1; if the counter thereby reaches 3 the large food is activated at
the spawned position, the small food is deactivated and the counter resets
to 0; otherwise the small food respawns at the spawned position, stays
active, and the counter increments. -/
theorem small_food_tick_amended (st : GameState) (spA spB : Pos)
    (hx : st.smallFoodOnScreen = !st.bigFoodOnScreen)
    (hsf : smallBranchFires (collideStep (moveStep st)) = true)
    (hsafe : st.smallFoodEaten = 2 →
      ¬ distSq (headPos (collideStep (moveStep st))) spA < (SQUARE_SIZE * 2) ^ 2) :
    (tick spA spB st).snake.length = st.snake.length + 25 ∧
    (tick spA spB st).score = st.score + 1 ∧
    (st.smallFoodEaten = 2 →
      (tick spA spB st).bigFoodOnScreen = true ∧
      (tick spA spB st).smallFoodOnScreen = false ∧
      (tick spA spB st).smallFoodEaten = 0 ∧
      (tick spA spB st).bigFoodPos = spA) ∧
    (¬ st.smallFoodEaten = 2 →
      (tick spA spB st).smallFoodOnScreen = true ∧
      (tick spA spB st).bigFoodOnScreen = false ∧
      (tick spA spB st).smallFoodEaten = st.smallFoodEaten + 1 ∧
      (tick spA spB st).smallFoodPos = spA) := by
  have hbig1 := bigOff_of_smallFires st hx hsf
  have hfields := collide_move_fields st
  by_cases he : (collideStep (moveStep st)).smallFoodEaten + 1 = 3
  · have heat : st.smallFoodEaten = 2 := by
      have h2 := he
      rw [hfields.2.1] at h2
      omega
    have hstep := smallFoodStep_eq_of_third spA (collideStep (moveStep st)) hsf he
    have hhead := headPos_third spA (collideStep (moveStep st)) hsf he
    have hnb : bigBranchFires (smallFoodStep spA (collideStep (moveStep st))) = false := by
      have hsafe2 := hsafe heat
      rw [← hhead] at hsafe2
      simp only [bigBranchFires]
      rw [bigFoodPos_third spA (collideStep (moveStep st)) hsf he,
        bigOn_third spA (collideStep (moveStep st)) hsf he]
      simp [hsafe2]
    have htick : tick spA spB st = smallFoodStep spA (collideStep (moveStep st)) := by
      rw [show tick spA spB st =
          bigFoodStep spB (smallFoodStep spA (collideStep (moveStep st))) from rfl,
        bigFoodStep_id spB _ hnb]
    rw [htick, hstep]
    refine ⟨?_, ?_, fun _ => ⟨rfl, rfl, rfl, rfl⟩, fun hne => absurd heat hne⟩
    · simp [grow_length, hfields.2.2.2.2]
    · simp [hfields.1]
  · have hne : ¬ st.smallFoodEaten = 2 := by
      rw [hfields.2.1] at he
      omega
    have hstep := smallFoodStep_eq_of_notThird spA (collideStep (moveStep st)) hsf he
    have hnb : bigBranchFires (smallFoodStep spA (collideStep (moveStep st))) = false := by
      rw [hstep]
      simp [bigBranchFires, hbig1]
    have htick : tick spA spB st = smallFoodStep spA (collideStep (moveStep st)) := by
      rw [show tick spA spB st =
          bigFoodStep spB (smallFoodStep spA (collideStep (moveStep st))) from rfl,
        bigFoodStep_id spB _ hnb]
    rw [htick, hstep]
    refine ⟨?_, ?_, fun h2 => absurd h2 hne, fun _ => ⟨rfl, ?_, ?_, rfl⟩⟩
    · simp [grow_length, hfields.2.2.2.2]
    · simp [hfields.1]
    · simpa using hbig1
    · simp [hfields.2.1]

/-- Closed instance of `small_food_tick_amended`: exactly the scenario of
the claim — fresh game (length 1) with the small food in eating range ahead
of the head; one tick yields score 1, 26 segments, counter 1, and the small
food re-spawned at the oracle position, still active. -/
theorem small_food_tick_amended_witness :
    (tick (423, 300) (500, 300) cex0).snake.length = cex0.snake.length + 25 ∧
    (tick (423, 300) (500, 300) cex0).score = cex0.score + 1 ∧
    (cex0.smallFoodEaten = 2 →
      (tick (423, 300) (500, 300) cex0).bigFoodOnScreen = true ∧
      (tick (423, 300) (500, 300) cex0).smallFoodOnScreen = false ∧
      (tick (423, 300) (500, 300) cex0).smallFoodEaten = 0 ∧
      (tick (423, 300) (500, 300) cex0).bigFoodPos = (423, 300)) ∧
    (¬ cex0.smallFoodEaten = 2 →
      (tick (423, 300) (500, 300) cex0).smallFoodOnScreen = true ∧
      (tick (423, 300) (500, 300) cex0).bigFoodOnScreen = false ∧
      (tick (423, 300) (500, 300) cex0).smallFoodEaten = cex0.smallFoodEaten + 1 ∧
      (tick (423, 300) (500, 300) cex0).smallFoodPos = (423, 300)) :=
  small_food_tick_amended cex0 (423, 300) (500, 300) (by with_unfolding_all decide)
    (by with_unfolding_all decide)
    (fun h2 => absurd h2 (by with_unfolding_all decide))

end Snake
